import Mathlib

/-!
Verification of the research-query router and CLI of the
`shaneholloman/claude-scientific-writer` repository.

The router core (BackendSelector, BackendAdapter, CitationExtractor,
ResearchRouter, BatchRunner) is described by the specification but its
implementation file is not in the source tree available here; those
components are modelled faithfully from the specification text (each such
definition carries a doc comment starting `Modelled from the spec:`).
The CLI (`scientific_writer/cli.py`) is in the source tree and is embedded
directly from the code.
-/

set_option autoImplicit false

namespace ScientificWriter

/-- Modelled from the spec: the two research backends (§2, §4.1).  The
implementation of the router is not in the available source tree; the
spec names a general-purpose backend and an academic-specialist backend. -/
inductive BackendId where
  | general
  | academic
  deriving DecidableEq, Repr

/-- Modelled from the spec: `BackendAvailability` — two independent booleans,
one per backend, computed once from credential presence (§3). -/
structure BackendAvailability where
  general : Bool
  academic : Bool
  deriving DecidableEq, Repr

/-- Availability of one backend under a `BackendAvailability`. -/
def BackendAvailability.avail (av : BackendAvailability) : BackendId → Bool
  | BackendId.general => av.general
  | BackendId.academic => av.academic

/-- Modelled from the spec: the failure kind of the selector: `NoBackendAvailable`
(§4.1, §7). -/
inductive SelectError where
  | noBackendAvailable
  deriving DecidableEq, Repr

/-- Case-insensitive character comparison helper: `p` is expected lowercase. -/
def charMatchesCI (p c : Char) : Bool :=
  p == c.toLower

/-- `startsWithCh needle hay` — `needle` is a prefix of `hay` (exact chars). -/
def startsWithCh : List Char → List Char → Bool
  | [], _ => true
  | _ :: _, [] => false
  | p :: ps, c :: cs => p == c && startsWithCh ps cs

/-- `containsSub needle hay` — `needle` occurs as a contiguous substring of
`hay` (exact chars). -/
def containsSub (needle : List Char) : List Char → Bool
  | [] => needle == []
  | c :: cs => startsWithCh needle (c :: cs) || containsSub needle cs

/-- Modelled from the spec: the fixed enumerated list of academic-intent
phrases used for classification (§4.1 step 2). -/
def academicKeywords : List String :=
  ["find papers", "doi:", "pubmed", "systematic review", "arxiv", "highly cited"]

/-- Character-wise lower-casing of the characters of a string (the model of
the Python `str.lower()` method on the ASCII queries involved). -/
def lowerChars (q : String) : List Char :=
  q.toList.map Char.toLower

/-- Modelled from the spec: classification of a query — lower-case the string
and test membership of any academic-intent phrase, substring match,
case-insensitive (§4.1 step 2). -/
def isAcademicQuery (q : String) : Bool :=
  academicKeywords.any (fun k => containsSub k.toList (lowerChars q))

/-- Modelled from the spec: steps 2–5 of the selection policy (§4.1), used
when no forced override applies. -/
def selectClassify (q : String) (av : BackendAvailability) :
    Except SelectError BackendId :=
  if isAcademicQuery q && av.academic then Except.ok BackendId.academic
  else if av.general then Except.ok BackendId.general
  else if av.academic then Except.ok BackendId.academic
  else Except.error SelectError.noBackendAvailable

/-- Modelled from the spec: `select(query, forced, availability)` (§4.1).
Step 1: if `forced` is set and that backend is available, return it;
otherwise fall through to classification (steps 2–5). -/
def select (q : String) (forced : Option BackendId) (av : BackendAvailability) :
    Except SelectError BackendId :=
  match forced with
  | some b => if av.avail b then Except.ok b else selectClassify q av
  | none => selectClassify q av

/-- `startsWithCI needle hay` — `needle` (given lowercase) is a prefix of
`hay`, comparing case-insensitively. -/
def startsWithCI : List Char → List Char → Bool
  | [], _ => true
  | _ :: _, [] => false
  | p :: ps, c :: cs => (p == c.toLower) && startsWithCI ps cs

/-- Modelled from the spec: the three citation kinds (§3):
`source` (structured, from a backend API), `doi` (from free text, with
derived canonical URL), `url` (scholarly URL from free text). -/
inductive Citation where
  | source (url : String) (title : Option String) (date : Option String)
      (excerpts : List String)
  | doi (doi : String) (url : String)
  | url (url : String)
  deriving DecidableEq

/-- Characters allowed inside a DOI suffix token: non-whitespace and
non-bracket (§4.3). -/
def doiTokenCh (c : Char) : Bool :=
  !c.isWhitespace && !(['(', ')', '[', ']', '<', '>'].contains c)

/-- Modelled from the spec: parse `10.<4+ digits>/<non-whitespace,
non-bracket token>` at the head of the character list, returning the DOI
characters (§4.3). -/
def parseDOIValue (cs : List Char) : Option (List Char) :=
  match cs with
  | '1' :: '0' :: '.' :: rest =>
    let digits := rest.takeWhile Char.isDigit
    let rest2 := rest.dropWhile Char.isDigit
    if 4 ≤ digits.length then
      match rest2 with
      | '/' :: rest3 =>
        let tok := rest3.takeWhile doiTokenCh
        if tok.isEmpty then none
        else some ('1' :: '0' :: '.' :: (digits ++ '/' :: tok))
      | _ => none
    else none
  | _ => none

/-- Modelled from the spec: the DOI mention prefixes `doi:` / `doi ` /
`dx.doi.org/` / `doi.org/` (§4.3), matched case-insensitively. -/
def doiPrefixes : List (List Char) :=
  ["dx.doi.org/".toList, "doi.org/".toList, "doi:".toList, "doi ".toList]

/-- Try to read one DOI mention starting exactly at the head of `cs`:
one of the recognized prefixes followed by a DOI value. -/
def tryDOIAt (cs : List Char) : Option (List Char) :=
  (doiPrefixes.filterMap (fun p =>
    if startsWithCI p cs then parseDOIValue (cs.drop p.length) else none)).head?

/-- Scan the whole text for DOI mentions, advancing one character at a time
(duplicates produced by overlapping prefixes are removed by the later
dedup step). -/
def scanDOIs : List Char → List (List Char)
  | [] => []
  | c :: cs =>
    match tryDOIAt (c :: cs) with
    | some d => d :: scanDOIs cs
    | none => scanDOIs cs

/-- Modelled from the spec: strip trailing `.,;:)]` punctuation from a
matched DOI (§4.3). -/
def stripTrailingPunct (cs : List Char) : List Char :=
  (cs.reverse.dropWhile (fun c => ['.', ',', ';', ':', ')', ']'].contains c)).reverse

/-- Deduplicate a list of character lists, keeping the first occurrence of
each value, in first-seen order. -/
def dedupAux (seen : List (List Char)) : List (List Char) → List (List Char)
  | [] => []
  | x :: xs =>
    if seen.contains x then dedupAux seen xs
    else x :: dedupAux (x :: seen) xs

/-- First-seen-order deduplication. -/
def dedupFirst (l : List (List Char)) : List (List Char) :=
  dedupAux [] l

/-- Modelled from the spec: DOI text extraction (§4.3) — find all DOI
mentions, strip trailing punctuation, dedupe by normalized DOI, and emit
kind `doi` with derived canonical URL `https://doi.org/<doi>`. -/
def extractDOIcitations (text : String) : List Citation :=
  (dedupFirst ((scanDOIs text.toList).map stripTrailingPunct)).map
    (fun d => Citation.doi (String.mk d) ("https://doi.org/" ++ String.mk d))

/-- Modelled from the spec: the fixed set of scholarly domain tokens
(§4.3). -/
def scholarlyDomains : List String :=
  ["arxiv.org", "pubmed", "ncbi.nlm.nih.gov", "nature.com", "science.org",
   "wiley.com", "springer.com", "ieee.org", "acm.org"]

/-- Try to read one `http(s)://...` token starting exactly at the head of
`cs` (case-insensitive scheme match, token runs to the next whitespace). -/
def tryURLAt (cs : List Char) : Option (List Char) :=
  if startsWithCI "https://".toList cs || startsWithCI "http://".toList cs then
    some (cs.takeWhile (fun c => !c.isWhitespace))
  else none

/-- Scan the whole text for `http(s)://` tokens. -/
def scanURLs : List Char → List (List Char)
  | [] => []
  | c :: cs =>
    match tryURLAt (c :: cs) with
    | some u => u :: scanURLs cs
    | none => scanURLs cs

/-- A URL token counts as scholarly when it contains one of the fixed domain
tokens (case-insensitive). -/
def isScholarlyURL (u : List Char) : Bool :=
  scholarlyDomains.any (fun d => containsSub d.toList (u.map Char.toLower))

/-- Strip trailing `.` characters from a matched URL (§4.3). -/
def stripTrailingDots (u : List Char) : List Char :=
  (u.reverse.dropWhile (fun c => c == '.')).reverse

/-- Modelled from the spec: scholarly-URL text extraction (§4.3) — keep
`http(s)://` tokens containing a scholarly domain, strip trailing `.`,
dedupe by exact string, emit kind `url`. -/
def extractURLcitations (text : String) : List Citation :=
  (dedupFirst (((scanURLs text.toList).filter isScholarlyURL).map
      stripTrailingDots)).map
    (fun u => Citation.url (String.mk u))

/-- Modelled from the spec: the full text-extraction path (§4.3) — both
regex scans run on the free text of the response; DOI citations listed first,
then scholarly URLs. -/
def extractTextCitations (text : String) : List Citation :=
  extractDOIcitations text ++ extractURLcitations text

/-- **C3.** DOI text extraction normalizes and deduplicates: on the input
"see doi:10.1038/s41586-020-1234-5 and doi.org/10.1038/s41586-020-1234-5."
it yields exactly one `doi` citation with value `10.1038/s41586-020-1234-5`
(trailing period stripped, both mention styles merged) and derived URL
`https://doi.org/10.1038/s41586-020-1234-5`. -/
theorem doi_extraction_normalizes_dedupes :
    extractDOIcitations
        "see doi:10.1038/s41586-020-1234-5 and doi.org/10.1038/s41586-020-1234-5." =
      [Citation.doi "10.1038/s41586-020-1234-5"
        "https://doi.org/10.1038/s41586-020-1234-5"] := by
  decide

/-- "find papers" is one of the academic keywords, so a lower-cased query
containing it classifies as academic. -/
lemma isAcademicQuery_of_findPapers (q : String)
    (h : containsSub ("find papers".toList) (lowerChars q) = true) :
    isAcademicQuery q = true := by
  unfold isAcademicQuery academicKeywords
  simp only [List.any_cons, Bool.or_eq_true]
  exact Or.inl h

/-- **C2.** For every query containing the substring "find papers" (any
letter case, expressed as: the lower-cased query contains "find papers"),
with both backends available and no forced override, `select` returns the
academic-specialist backend. -/
theorem select_findPapers_academic (q : String)
    (h : containsSub ("find papers".toList) (lowerChars q) = true) :
    select q none ⟨true, true⟩ = Except.ok BackendId.academic := by
  unfold select selectClassify
  rw [isAcademicQuery_of_findPapers q h]
  rfl

/-- Witness for **C2** at the concrete query "Please FIND Papers on CRISPR". -/
theorem select_findPapers_academic_witness :
    select "Please FIND Papers on CRISPR" none ⟨true, true⟩ =
      Except.ok BackendId.academic :=
  select_findPapers_academic "Please FIND Papers on CRISPR" (by decide)

/-- **C6.** `select` fails with `NoBackendAvailable` exactly when both
availability flags are false, for every query and every forced-override
value. -/
theorem select_fails_iff_none_available (q : String) (forced : Option BackendId)
    (av : BackendAvailability) :
    select q forced av = Except.error SelectError.noBackendAvailable ↔
      (av.general = false ∧ av.academic = false) := by
  obtain ⟨g, a⟩ := av
  rcases forced with _ | b
  · cases g <;> cases a <;> cases h : isAcademicQuery q <;>
      simp [select, selectClassify, h]
  · cases b <;> cases g <;> cases a <;> cases h : isAcademicQuery q <;>
      simp [select, selectClassify, BackendAvailability.avail, h]

/-- **C7.** When exactly one backend credential is configured, `select`
returns that backend for every query and every forced override — forcing
the unavailable backend is silently ignored (fallback-over-fail). -/
theorem select_single_backend (q : String) (forced : Option BackendId) :
    select q forced ⟨true, false⟩ = Except.ok BackendId.general ∧
    select q forced ⟨false, true⟩ = Except.ok BackendId.academic := by
  rcases forced with _ | b
  · constructor <;> cases h : isAcademicQuery q <;>
      simp [select, selectClassify, h]
  · cases b <;> constructor <;> cases h : isAcademicQuery q <;>
      simp [select, selectClassify, BackendAvailability.avail, h]

/-- Witness for **C6**: with both credentials absent, any concrete query
fails with `NoBackendAvailable`. -/
theorem select_fails_iff_none_available_witness :
    select "find papers on CRISPR" (some BackendId.academic) ⟨false, false⟩ =
      Except.error SelectError.noBackendAvailable :=
  (select_fails_iff_none_available "find papers on CRISPR"
    (some BackendId.academic) ⟨false, false⟩).mpr ⟨rfl, rfl⟩

/-- Witness for **C7**: with only the general backend configured, even
forcing the academic backend yields the general one, and symmetrically. -/
theorem select_single_backend_witness :
    select "what is the weather" (some BackendId.academic) ⟨true, false⟩ =
      Except.ok BackendId.general ∧
    select "what is the weather" (some BackendId.general) ⟨false, true⟩ =
      Except.ok BackendId.academic :=
  ⟨(select_single_backend "what is the weather" (some BackendId.academic)).1,
   (select_single_backend "what is the weather" (some BackendId.general)).2⟩

/-- Modelled from the spec: one normalized structured-citation entry as the
extractor sees it after adapter-side normalization (§4.3, §9) — plain
fields `url`, optional `title`/`date`, excerpt strings. -/
structure SourceEntry where
  url : String
  title : Option String
  date : Option String
  excerpts : List String
  deriving DecidableEq

/-- Modelled from the spec: a `RawResponse` (§4.2) — response text, the
normalized structured citation entries, and a model-identifying string. -/
structure RawResponse where
  text : String
  structured : List SourceEntry
  model : String
  deriving DecidableEq

/-- Modelled from the spec: structured extraction (§4.3) — for each entry
pull `url`/`title`/`date`/`excerpts`, skip entries with empty `url`,
deduplicate by `url` in first-seen order (first title wins). -/
def structuredAux (seen : List String) : List SourceEntry → List Citation
  | [] => []
  | e :: es =>
    if e.url = "" then structuredAux seen es
    else if seen.contains e.url then structuredAux seen es
    else Citation.source e.url e.title e.date e.excerpts ::
      structuredAux (e.url :: seen) es

/-- Structured extraction entry point. -/
def structuredExtract (entries : List SourceEntry) : List Citation :=
  structuredAux [] entries

/-- An adapter is modelled as a function from backend and query to either a
raw response or a `BackendError` message string (§4.2: transport failures
are caught at the adapter boundary and carried as the underlying
exception string). -/
def BackendAdapter : Type :=
  BackendId → String → Except String RawResponse

/-- Modelled from the spec: `LookupResult` (§3) — outcome of one query
against one backend.  On a selection failure no backend was chosen, so
`backend`/`model` are absent. -/
structure LookupResult where
  success : Bool
  query : String
  response : Option String
  citations : List Citation
  sources : List Citation
  backend : Option BackendId
  model : Option String
  timestamp : Nat
  error : Option String
  deriving DecidableEq

/-- Modelled from the spec: the fixed model-identifier of each backend, used
to populate the `model` field on adapter failure (§3: failure results carry
the same `backend`/`model`/`timestamp`). -/
def backendModelName : BackendId → String
  | BackendId.general => "general-model"
  | BackendId.academic => "academic-model"

/-- Modelled from the spec: `ResearchRouter.lookup` (§4.4).  Select a
backend (failing fast into a `success=false` result when none is
available), call the adapter (an adapter failure becomes a `success=false`
result carrying backend/model/timestamp and the error message), and on
success run both extraction paths, assembling `citations` as structured ++
text-derived and `sources` as structured only.  The timestamp is the
capture time passed by the caller. -/
def lookup (av : BackendAvailability) (forced : Option BackendId)
    (adapter : BackendAdapter) (ts : Nat) (q : String) : LookupResult :=
  match select q forced av with
  | Except.error _ =>
    { success := false, query := q, response := none, citations := [],
      sources := [], backend := none, model := none, timestamp := ts,
      error := some "No research backend available" }
  | Except.ok b =>
    match adapter b q with
    | Except.error msg =>
      { success := false, query := q, response := none, citations := [],
        sources := [], backend := some b,
        model := some (backendModelName b), timestamp := ts,
        error := some msg }
    | Except.ok raw =>
      { success := true, query := q, response := some raw.text,
        citations := structuredExtract raw.structured ++
          extractTextCitations raw.text,
        sources := structuredExtract raw.structured,
        backend := some b, model := some raw.model, timestamp := ts,
        error := none }

/-- Modelled from the spec: `BatchRunner.batchLookup` (§4.5) — drive the
router sequentially over the queries.  The inter-call delay is pure
wall-clock behaviour and does not influence any result, so it is carried
as an (unused) argument of the model. -/
def batchLookup (av : BackendAvailability) (forced : Option BackendId)
    (adapter : BackendAdapter) (ts : Nat) (qs : List String)
    (delaySeconds : Nat) : List LookupResult :=
  let _ := delaySeconds
  qs.map (lookup av forced adapter ts)

/-- **C1.** `lookup` is a total function into `LookupResult` (it never
raises); every failure path yields `success = false`: a selection failure
(no backend available) gives a failure result, and a failing adapter call
gives `success = false` with the error message of the adapter (non-empty when
the underlying message is), the chosen backend, and the timestamp still
populated.  Conversely a `success = true` result can only arise when both
selection and the adapter call succeeded. -/
theorem lookup_failure_paths (av : BackendAvailability)
    (forced : Option BackendId) (adapter : BackendAdapter) (ts : Nat)
    (q : String) :
    (∀ e, select q forced av = Except.error e →
      (lookup av forced adapter ts q).success = false) ∧
    (∀ b msg, select q forced av = Except.ok b →
      adapter b q = Except.error msg →
      (lookup av forced adapter ts q).success = false ∧
      (lookup av forced adapter ts q).error = some msg ∧
      (msg ≠ "" → (lookup av forced adapter ts q).error ≠ some "") ∧
      (lookup av forced adapter ts q).backend = some b ∧
      (lookup av forced adapter ts q).timestamp = ts) ∧
    ((lookup av forced adapter ts q).success = true →
      ∃ b raw, select q forced av = Except.ok b ∧
        adapter b q = Except.ok raw) := by
  refine ⟨?_, ?_, ?_⟩
  · intro e he
    simp [lookup, he]
  · intro b msg hb hmsg
    simp [lookup, hb, hmsg]
  · intro hs
    rcases hsel : select q forced av with e | b
    · simp [lookup, hsel] at hs
    · rcases hadp : adapter b q with msg | raw
      · simp [lookup, hsel, hadp] at hs
      · exact ⟨b, raw, rfl, hadp⟩

/-- An adapter that always fails with message "transport error". -/
def failingAdapter : BackendAdapter :=
  fun _ _ => Except.error "transport error"

/-- Witness for **C1**: with both backends available and an adapter whose
call fails, the lookup of "what is dark matter" produces a failure result
with the message, backend and timestamp populated. -/
theorem lookup_failure_paths_witness :
    (lookup ⟨true, true⟩ none failingAdapter 42 "what is dark matter").success
        = false ∧
    (lookup ⟨true, true⟩ none failingAdapter 42 "what is dark matter").error
        = some "transport error" ∧
    (lookup ⟨true, true⟩ none failingAdapter 42 "what is dark matter").backend
        = some BackendId.general ∧
    (lookup ⟨true, true⟩ none failingAdapter 42 "what is dark matter").timestamp
        = 42 := by
  have h := (lookup_failure_paths ⟨true, true⟩ none failingAdapter 42
      "what is dark matter").2.1 BackendId.general "transport error"
    rfl rfl
  exact ⟨h.1, h.2.1, h.2.2.2.1, h.2.2.2.2⟩

/-- **C4.** On every successful `LookupResult`, `citations` equals `sources`
followed by the text-derived citations, in that order, and `sources` is
exactly what structured extraction alone produces on the raw adapter
response (text extraction never adds to, removes from, or reorders
`sources`). -/
theorem lookup_success_citation_shape (av : BackendAvailability)
    (forced : Option BackendId) (adapter : BackendAdapter) (ts : Nat)
    (q : String)
    (hs : (lookup av forced adapter ts q).success = true) :
    ∃ b raw, select q forced av = Except.ok b ∧
      adapter b q = Except.ok raw ∧
      (lookup av forced adapter ts q).sources =
        structuredExtract raw.structured ∧
      (lookup av forced adapter ts q).citations =
        (lookup av forced adapter ts q).sources ++
          extractTextCitations raw.text := by
  rcases hsel : select q forced av with e | b
  · simp [lookup, hsel] at hs
  · rcases hadp : adapter b q with msg | raw
    · simp [lookup, hsel, hadp] at hs
    · exact ⟨b, raw, rfl, hadp, by simp [lookup, hsel, hadp],
        by simp [lookup, hsel, hadp]⟩

/-- An adapter that succeeds with a fixed response carrying one structured
entry and a DOI mention in its text. -/
def okAdapter : BackendAdapter :=
  fun _ _ => Except.ok
    { text := "see doi:10.1038/s41586-020-1234-5 for details",
      structured :=
        [{ url := "https://example.org/a", title := some "A", date := none,
           excerpts := [] }],
      model := "model-x" }

/-- Witness for **C4** at a concrete successful lookup. -/
theorem lookup_success_citation_shape_witness :
    ∃ b raw, select "hello" none ⟨true, true⟩ = Except.ok b ∧
      okAdapter b "hello" = Except.ok raw ∧
      (lookup ⟨true, true⟩ none okAdapter 7 "hello").sources =
        structuredExtract raw.structured ∧
      (lookup ⟨true, true⟩ none okAdapter 7 "hello").citations =
        (lookup ⟨true, true⟩ none okAdapter 7 "hello").sources ++
          extractTextCitations raw.text :=
  lookup_success_citation_shape ⟨true, true⟩ none okAdapter 7 "hello" rfl

/-- **C5.** `batchLookup` is length- and order-preserving for every list of
queries and every delay value: the output has the same length as the input
and `output[i]` is exactly the lookup of `input[i]`; a failure for one
query cannot influence any other entry since each entry is an independent
`lookup`. -/
theorem batchLookup_length_order (av : BackendAvailability)
    (forced : Option BackendId) (adapter : BackendAdapter) (ts : Nat)
    (qs : List String) (delaySeconds : Nat) :
    (batchLookup av forced adapter ts qs delaySeconds).length = qs.length ∧
    ∀ i (h : i < qs.length),
      (batchLookup av forced adapter ts qs delaySeconds).get
          ⟨i, by simpa [batchLookup] using h⟩ =
        lookup av forced adapter ts (qs.get ⟨i, h⟩) := by
  constructor
  · simp [batchLookup]
  · intro i h
    simp [batchLookup]

/-- An adapter that fails exactly on the query "b" and succeeds elsewhere. -/
def midFailAdapter : BackendAdapter :=
  fun _ q =>
    if q = "b" then Except.error "transport error"
    else Except.ok { text := "fine", structured := [], model := "model-x" }

/-- Witness for **C5**: `batchLookup ["a", "b", "c"]` with delay 0 returns 3
results in input order even though the adapter call for the middle query fails. -/
theorem batchLookup_length_order_witness :
    (batchLookup ⟨true, true⟩ none midFailAdapter 0 ["a", "b", "c"] 0).length
        = 3 ∧
    (batchLookup ⟨true, true⟩ none midFailAdapter 0 ["a", "b", "c"] 0).get
        ⟨1, by decide⟩ =
      lookup ⟨true, true⟩ none midFailAdapter 0 "b" ∧
    (lookup ⟨true, true⟩ none midFailAdapter 0 "b").success = false ∧
    (lookup ⟨true, true⟩ none midFailAdapter 0 "a").success = true ∧
    (lookup ⟨true, true⟩ none midFailAdapter 0 "c").success = true := by
  have h := batchLookup_length_order ⟨true, true⟩ none midFailAdapter 0
    ["a", "b", "c"] 0
  refine ⟨h.1, ?_, by decide, by decide, by decide⟩
  have h2 := h.2 1 (by decide)
  simpa using h2

/-- Outcome of the CLI startup credential check in `main`
(`scientific_writer/cli.py`): either the process exits with a code after
printing a line, or startup proceeds toward the interactive loop. -/
inductive StartupOutcome where
  | exited (code : Nat) (printed : String)
  | proceeded
  deriving DecidableEq

/-- Embedding of the credential check at the top of `main`
(`cli.py` lines 77–82): `get_api_key()` is called; if it raises
`ValueError e` the CLI prints `"Error: " ++ e` and calls `sys.exit(1)`,
otherwise startup proceeds.  The `get_api_key` implementation itself lives
outside the available source tree, so its outcome is passed in as an
`Except` value. -/
def mainStartup (apiKeyCheck : Except String Unit) : StartupOutcome :=
  match apiKeyCheck with
  | Except.error e => StartupOutcome.exited 1 ("Error: " ++ e)
  | Except.ok _ => StartupOutcome.proceeded

/-- **C8.** If the API-key lookup raises `ValueError` at startup, `main`
prints the error and terminates the process with exit code 1 before
entering the interactive loop (the `exited` outcome, by construction,
never reaches the loop). -/
theorem mainStartup_exits_one_on_valueError (e : String) :
    mainStartup (Except.error e) = StartupOutcome.exited 1 ("Error: " ++ e) ∧
    mainStartup (Except.ok ()) = StartupOutcome.proceeded :=
  ⟨rfl, rfl⟩

/-- Witness for **C8** at a concrete error message. -/
theorem mainStartup_exits_one_on_valueError_witness :
    mainStartup (Except.error "No API key configured") =
      StartupOutcome.exited 1 "Error: No API key configured" :=
  (mainStartup_exits_one_on_valueError "No API key configured").1

/-- Opaque payload standing for the SDK type `StopHookInput`; the hook never
inspects it. -/
structure StopHookPayload where
  raw : String
  deriving DecidableEq

/-- Opaque payload standing for the SDK type `HookContext`; the hook never
inspects it. -/
structure HookCtx where
  raw : String
  deriving DecidableEq

/-- The dictionary returned by the stop hook: its single relevant key
`continue_`. -/
structure StopHookOutput where
  continue_ : Bool
  deriving DecidableEq

/-- Embedding of `create_completion_check_stop_hook` (`cli.py` lines
31–57): returns an (async) hook closure that ignores its three arguments
and answers `continue_ := true` when `auto_continue` is set, and
`continue_ := false` otherwise. -/
def create_completion_check_stop_hook (auto_continue : Bool) :
    StopHookPayload → Option String → HookCtx → StopHookOutput :=
  fun _hookInput _matcher _context =>
    if auto_continue then { continue_ := true } else { continue_ := false }

/-- Embedding of the `auto_continue` computation in `main` (`cli.py` line
118): `os.environ.get("SCIENTIFIC_WRITER_AUTO_CONTINUE", "true").lower()
in ("true", "1", "yes")`, with the value of the environment variable modelled
as an `Option String` and lower-casing as character-wise `Char.toLower`. -/
def autoContinueEnabled (envVal : Option String) : Bool :=
  ["true", "1", "yes"].contains
    (String.mk (lowerChars (envVal.getD "true")))

/-- **C9.** The created stop hook answers `continue_ = true` exactly when
`auto_continue` is true, for every hook input, matcher and context; and
`auto_continue` in `main` is true exactly when the environment variable is
unset or its lower-cased value is one of "true", "1", "yes" — so by
default the agent is never allowed to stop on its own. -/
theorem stop_hook_continues_iff_auto_continue (ac : Bool)
    (inp : StopHookPayload) (m : Option String) (ctx : HookCtx)
    (env : Option String) :
    ((create_completion_check_stop_hook ac inp m ctx).continue_ = true ↔
      ac = true) ∧
    (autoContinueEnabled env = true ↔
      env = none ∨ ∃ v, env = some v ∧
        (String.mk (lowerChars v) = "true" ∨
          String.mk (lowerChars v) = "1" ∨
          String.mk (lowerChars v) = "yes")) := by
  constructor
  · cases ac <;> simp [create_completion_check_stop_hook]
  · rcases env with _ | v
    · simp [autoContinueEnabled, lowerChars]
    · simp [autoContinueEnabled]

/-- Witness for **C9**: with the environment variable set to "TRUE",
auto-continue is enabled and the hook answers `continue_ = true`. -/
theorem stop_hook_continues_iff_auto_continue_witness :
    autoContinueEnabled (some "TRUE") = true ∧
    (create_completion_check_stop_hook true ⟨"input"⟩ none ⟨"ctx"⟩).continue_
      = true := by
  have h := stop_hook_continues_iff_auto_continue true ⟨"input"⟩ none ⟨"ctx"⟩
    (some "TRUE")
  exact ⟨h.2.mpr (Or.inr ⟨"TRUE", rfl, Or.inl (by decide)⟩), h.1.mpr rfl⟩

/-- Embedding of the Python `max(paper_dirs, key=mtime)` call over a nonempty
list: iterate, keeping the current best and replacing it only on a
strictly greater key, so the first maximal element wins. -/
def maxAux (best : String × Nat) : List (String × Nat) → String × Nat
  | [] => best
  | d :: ds => maxAux (if best.2 < d.2 then d else best) ds

/-- `max` by modification time over a possibly-empty directory list. -/
def maxByMtime : List (String × Nat) → Option (String × Nat)
  | [] => none
  | d :: ds => some (maxAux d ds)

/-- Embedding of the paper-directory detection step after a query completes
(`cli.py` lines 437–452).  `scan` is the outcome of listing the subdirectories of the output
folder as (name, mtime) pairs — `Except.error` when the
scan raises.  The block runs only when no current paper is tracked and no
data files are present; it sets the current paper to the most-recently
modified directory only when `now - mtime < 10` seconds (the Python test
`time.time() - st_mtime < 10`; `Nat` truncated subtraction matches the
Python `<` test, which also accepts a modification instant at or after
`now`). -/
def detectNewPaperDir (currentPaperPath : Option String)
    (dataFiles : List String) (scan : Except Unit (List (String × Nat)))
    (now : Nat) : Option String :=
  if currentPaperPath = none ∧ dataFiles = [] then
    match scan with
    | Except.error _ => currentPaperPath
    | Except.ok dirs =>
      match maxByMtime dirs with
      | none => currentPaperPath
      | some md => if now - md.2 < 10 then some md.1 else currentPaperPath
  else currentPaperPath

/-- `maxAux` returns either the seed or a list element, with mtime at least that
of every element and of the seed. -/
lemma maxAux_spec (best : String × Nat) (ds : List (String × Nat)) :
    (maxAux best ds = best ∨ maxAux best ds ∈ ds) ∧
    best.2 ≤ (maxAux best ds).2 ∧
    ∀ d, d ∈ ds → d.2 ≤ (maxAux best ds).2 := by
  induction ds generalizing best with
  | nil => exact ⟨Or.inl rfl, Nat.le_refl _, by intro d hd; cases hd⟩
  | cons d ds ih =>
    rcases Nat.lt_or_ge best.2 d.2 with hlt | hge
    · have h := ih d
      refine ⟨?_, ?_, ?_⟩
      · rcases h.1 with h1 | h1
        · exact Or.inr (by simp [maxAux, hlt, h1])
        · exact Or.inr (by simp [maxAux, hlt]; exact Or.inr h1)
      · have : best.2 ≤ d.2 := Nat.le_of_lt hlt
        have h2 := h.2.1
        simpa [maxAux, hlt] using Nat.le_trans this h2
      · intro x hx
        rcases List.mem_cons.mp hx with rfl | hx
        · simpa [maxAux, hlt] using h.2.1
        · simpa [maxAux, hlt] using h.2.2 x hx
    · have hnlt : ¬ best.2 < d.2 := Nat.not_lt.mpr hge
      have h := ih best
      refine ⟨?_, ?_, ?_⟩
      · rcases h.1 with h1 | h1
        · exact Or.inl (by simp [maxAux, hnlt, h1])
        · exact Or.inr (by simp [maxAux, hnlt]; exact Or.inr h1)
      · simpa [maxAux, hnlt] using h.2.1
      · intro x hx
        rcases List.mem_cons.mp hx with rfl | hx
        · exact Nat.le_trans hge (by simpa [maxAux, hnlt] using h.2.1)
        · simpa [maxAux, hnlt] using h.2.2 x hx

/-- The directory chosen by `maxByMtime` is in the list and its mtime is
maximal. -/
lemma maxByMtime_spec (dirs : List (String × Nat)) (md : String × Nat)
    (h : maxByMtime dirs = some md) :
    md ∈ dirs ∧ ∀ d, d ∈ dirs → d.2 ≤ md.2 := by
  cases dirs with
  | nil => cases h
  | cons d ds =>
    have hmd : maxAux d ds = md := by
      simpa [maxByMtime] using h
    have hs := maxAux_spec d ds
    rw [hmd] at hs
    refine ⟨?_, ?_⟩
    · rcases hs.1 with h1 | h1
      · exact h1 ▸ List.mem_cons_self d ds
      · exact List.mem_cons_of_mem d h1
    · intro x hx
      rcases List.mem_cons.mp hx with rfl | hx
      · exact hs.2.1
      · exact hs.2.2 x hx

/-- **C10.** With no current paper tracked and no data files present, the
post-query detection step sets the current paper to the most-recently
modified subdirectory (an element of maximal mtime) exactly when its mtime
is within the last 10 seconds (`now - mtime < 10`); when the scan raises,
when there are no subdirectories, or when the most recent one is older,
the current paper stays `none`. -/
theorem detect_paper_dir_recent_only (now : Nat) :
    (detectNewPaperDir none [] (Except.error ()) now = none) ∧
    (detectNewPaperDir none [] (Except.ok []) now = none) ∧
    (∀ dirs name mtime, maxByMtime dirs = some (name, mtime) →
      (name, mtime) ∈ dirs ∧
      (∀ d, d ∈ dirs → d.2 ≤ mtime) ∧
      detectNewPaperDir none [] (Except.ok dirs) now =
        (if now - mtime < 10 then some name else none)) := by
  refine ⟨rfl, rfl, ?_⟩
  intro dirs name mtime h
  have hs := maxByMtime_spec dirs (name, mtime) h
  refine ⟨hs.1, hs.2, ?_⟩
  simp only [detectNewPaperDir, h]
  simp

/-- Witness for **C10**: among directories with mtimes 100 and 995 at
`now = 1000`, the one modified 5 seconds ago is selected. -/
theorem detect_paper_dir_recent_only_witness :
    ("new", 995) ∈ [("old", (100 : Nat)), ("new", 995)] ∧
    detectNewPaperDir none [] (Except.ok [("old", 100), ("new", 995)]) 1000 =
      some "new" := by
  have h := (detect_paper_dir_recent_only 1000).2.2
    [("old", 100), ("new", 995)] "new" 995 (by decide)
  refine ⟨h.1, ?_⟩
  have h3 := h.2.2
  simpa using h3

end ScientificWriter
